import Mathlib

/-!
# I2S output pipeline of `src/driver/i2s_freertos.c`

A shallow embedding of the five routines of the file
(`test_tx_complete`, `test_rx_complete`, `i2sInit`, `i2sSetRate`,
`i2sPushSample`) together with the two external collaborators they call:
the FreeRTOS queue and the I2S hardware abstraction layer.

* Static variables become fields of `State`.
* Calls into the hardware abstraction layer are appended to the trace
  `State.calls`; what `i2s_get_tx_page` returns is an input of the model.
* A call that never returns because it waits on the queue with
  `portMAX_DELAY` yields `Outcome.blocked`.
* `int` arithmetic of the rate cascade is evaluated in `Option`: `none` is
  signed overflow.
-/

namespace I2sFreertos

/-! ## Constants of the headers -/

/-- Sampling-rate constants of `i2s_api.h` that the source names. The header is
not among the sources, so the constants stay symbolic. -/
inductive SampleRate
  | SR_96KHZ | SR_88p2KHZ | SR_48KHZ | SR_44p1KHZ | SR_32KHZ | SR_24KHZ
  | SR_22p05KHZ | SR_16KHZ | SR_11p02KHZ | SR_8KHZ | SR_7p35KHZ
  deriving DecidableEq

/-- Channel-count constants of `i2s_api.h`; the source names `CH_STEREO`. -/
inductive ChannelNum
  | CH_STEREO | CH_MONO
  deriving DecidableEq

/-- Word-length constants of `i2s_api.h`; the source names `WL_16b`. -/
inductive WordLength
  | WL_16b | WL_24b
  deriving DecidableEq

/-- Direction constants of `i2s_api.h`; the source names `I2S_DIR_TXRX`. -/
inductive Direction
  | I2S_DIR_RX | I2S_DIR_TX | I2S_DIR_TXRX
  deriving DecidableEq

/-- Modelled from the spec: the rate in Hz that each sampling-rate constant of
the missing header `i2s_api.h` stands for, read off the list of section 4.2
and the numbers in the cascade of `i2sSetRate`. -/
def SampleRate.hz : SampleRate → Int
  | .SR_96KHZ => 96000
  | .SR_88p2KHZ => 88200
  | .SR_48KHZ => 48000
  | .SR_44p1KHZ => 44100
  | .SR_32KHZ => 32000
  | .SR_24KHZ => 24000
  | .SR_22p05KHZ => 22050
  | .SR_16KHZ => 16000
  | .SR_11p02KHZ => 11020
  | .SR_8KHZ => 8000
  | .SR_7p35KHZ => 7350

/-- Compile-time constants of `i2s_freertos.h` (not among the sources) and the
one address the code takes of a static variable. -/
structure Config where
  /-- The macro of the same name. -/
  I2S_DMA_PAGE_SIZE : Nat
  /-- The macro of the same name. -/
  I2S_DMA_PAGE_NUM : Nat
  /-- The value of `&currDMABuff`, the address of the static pointer variable. -/
  addr_currDMABuff : Nat

/-! ## State -/

/-- The fields of `i2s_obj` that the source assigns. -/
structure I2sObj where
  channel_num : ChannelNum
  sampling_rate : SampleRate
  word_length : WordLength
  direction : Direction
  deriving DecidableEq

/-- One call into the hardware abstraction layer, with the arguments the source
passes (the `&i2s_obj` argument, common to all, is left out). For
`i2s_get_tx_page` the value recorded is what the driver returned. -/
inductive DriverCall
  | i2s_init
  | i2s_set_dma_buffer (page_num page_size : Nat)
  | i2s_tx_irq_handler
  | i2s_rx_irq_handler
  | i2s_set_param (channel_num : ChannelNum) (sampling_rate : SampleRate)
      (word_length : WordLength)
  | i2s_get_tx_page (result : Nat)
  | i2s_send_page (pbuf : Nat)
  deriving DecidableEq

/-- Modelled from the spec: the handoff channel, a FreeRTOS queue (`queue.h` is
not among the sources): a bounded FIFO created with `uxLength` slots for items
of `sizeof(int*)` bytes, here one 32-bit word each; `items` lists the stored
words, front first. -/
structure Queue where
  uxLength : Nat
  items : List Nat
  deriving DecidableEq

/-- The static state of the file, and the memory its pointers address.
`mem a` is the 32-bit word stored at byte address `a`; every access of the file
goes through an `int*` or `unsigned int*`. `currDMABuff` is a pointer, `0` is
`NULL`. `tx_count` and `rx_count` are the two function-local `static u32 count`
variables. -/
structure State where
  i2s_obj : I2sObj
  mem : Nat → Nat
  dmaQueue : Queue
  underrunCnt : Int
  tx_count : Nat
  rx_count : Nat
  currDMABuff : Nat
  currDMABuffPos : Nat
  calls : List DriverCall

/-- Result of a task-context routine: it returned in state `s`, or it is
suspended in a queue operation with `portMAX_DELAY`, the state being `s` at
that point; it stays suspended unless another context changes the queue. -/
inductive Outcome
  | done (s : State)
  | blocked (s : State)

/-- State carried by an outcome. -/
def Outcome.state : Outcome → State
  | .done s => s
  | .blocked s => s

/-- Whether the routine is suspended in a queue operation. -/
def Outcome.isBlocked : Outcome → Bool
  | .done _ => false
  | .blocked _ => true

/-! ## FreeRTOS queue operations -/

/-- Modelled from the spec: `xQueueCreate(uxQueueLength, uxItemSize)` of the
FreeRTOS queue, an empty channel of the given capacity. -/
def xQueueCreate (uxQueueLength : Nat) : Queue :=
  { uxLength := uxQueueLength, items := [] }

/-- Modelled from the spec: `xQueueSend(q, pvItemToQueue, portMAX_DELAY)` of
the FreeRTOS queue, the blocking enqueue. The item is copied by value from the
address `pvItemToQueue` (the queue stores `uxItemSize` bytes read through that
pointer). `none` when the queue is full: the caller waits without timeout. -/
def xQueueSend (mem : Nat → Nat) (q : Queue) (pvItemToQueue : Nat) : Option Queue :=
  if q.items.length < q.uxLength then
    some { q with items := q.items ++ [mem pvItemToQueue] }
  else none

/-- Modelled from the spec: `xQueueSendFromISR(q, pvItemToQueue, _)` of the
FreeRTOS queue, the interrupt-safe enqueue that never waits. The item is copied
by value from the address `pvItemToQueue`. Returns `pdTRUE` and the extended
queue, or `errQUEUE_FULL` and the queue as it was. -/
def xQueueSendFromISR (mem : Nat → Nat) (q : Queue) (pvItemToQueue : Nat) : Bool × Queue :=
  if q.items.length < q.uxLength then
    (true, { q with items := q.items ++ [mem pvItemToQueue] })
  else (false, q)

/-- Modelled from the spec: `xQueueReceive(q, pvBuffer, portMAX_DELAY)` of the
FreeRTOS queue, the blocking dequeue: the front item and the remaining queue
(the caller stores the item in the variable `pvBuffer` points to). `none` when
the queue is empty: the caller waits without timeout. -/
def xQueueReceive (q : Queue) : Option (Nat × Queue) :=
  match q.items with
  | [] => none
  | item :: rest => some (item, { q with items := rest })

/-! ## Rate selection: `i2sSetRate` -/

/-- Least value of a 32-bit `int`. -/
def INT_MIN : Int := -2147483648

/-- Greatest value of a 32-bit `int`. -/
def INT_MAX : Int := 2147483647

/-- The `int` subtraction `a - b`; `none` on signed overflow. -/
def subInt (a b : Int) : Option Int :=
  if INT_MIN ≤ a - b ∧ a - b ≤ INT_MAX then some (a - b) else none

/-- The `int` negation `-a`; `none` on signed overflow. -/
def negInt (a : Int) : Option Int :=
  if INT_MIN ≤ -a ∧ -a ≤ INT_MAX then some (-a) else none

/-- The macro `ABS(x) (((x)>0)?(x):(-(x)))` at `x = rate - c`. -/
def ABS (rate c : Int) : Option Int :=
  match subInt rate c with
  | none => none
  | some x => if x > 0 then some x else negInt x

/-- One condition of the cascade, `rate<=R || ABS(rate-R)<ABS(rate-N)`. The
right operand of `||` is evaluated only when the left one is false. -/
def rateClause (rate R N : Int) : Option Bool :=
  if rate ≤ R then some true
  else
    match ABS rate R, ABS rate N with
    | some a, some b => some (decide (a < b))
    | _, _ => none

/-- The `if` / `else if` chain of `i2sSetRate` (lines 137 to 148): the value of
the local `sample_rate`. -/
def selectRate (rate : Int) : Option SampleRate :=
  match rateClause rate 96000 88200 with
  | none => none
  | some true => some .SR_96KHZ
  | some false =>
  match rateClause rate 88200 48000 with
  | none => none
  | some true => some .SR_88p2KHZ
  | some false =>
  match rateClause rate 48000 44100 with
  | none => none
  | some true => some .SR_48KHZ
  | some false =>
  match rateClause rate 44100 32000 with
  | none => none
  | some true => some .SR_44p1KHZ
  | some false =>
  match rateClause rate 32000 24000 with
  | none => none
  | some true => some .SR_32KHZ
  | some false =>
  match rateClause rate 24000 22050 with
  | none => none
  | some true => some .SR_24KHZ
  | some false =>
  match rateClause rate 22050 16000 with
  | none => none
  | some true => some .SR_22p05KHZ
  | some false =>
  match rateClause rate 16000 11020 with
  | none => none
  | some true => some .SR_16KHZ
  | some false =>
  match rateClause rate 11020 8000 with
  | none => none
  | some true => some .SR_11p02KHZ
  | some false =>
  match rateClause rate 8000 7350 with
  | none => none
  | some true => some .SR_8KHZ
  | some false => some .SR_7p35KHZ

/-- Routine `i2sSetRate(rate, lockBitcount)`: stores the selected constant in
`i2s_obj.sampling_rate` and calls
`i2s_set_param(&i2s_obj, i2s_obj.channel_num, i2s_obj.sampling_rate, WL_16b)`.
`lockBitcount` is not read. `none` when the cascade overflows. -/
def i2sSetRate (rate _lockBitcount : Int) (s : State) : Option State :=
  match selectRate rate with
  | none => none
  | some sample_rate =>
    let obj : I2sObj := { s.i2s_obj with sampling_rate := sample_rate }
    some { s with
      i2s_obj := obj
      calls := s.calls ++ [.i2s_set_param obj.channel_num obj.sampling_rate .WL_16b] }

/-- The supported hardware rates in the descending order of section 4.2. -/
def hardwareRates : List Int :=
  [96000, 88200, 48000, 44100, 32000, 24000, 22050, 16000, 11020, 8000, 7350]

/-- The reference cascade, written after the words of section 4.2: walking
the list from highest to lowest, the first rate `R` with `requested ≤ R` or `R`
strictly closer to `requested` than the next lower candidate; the lowest rate
7350 when no candidate matches. -/
def referenceCascade (requested : Int) : List Int → Int
  | [] => 7350
  | [R] => if requested ≤ R then R else 7350
  | R :: next :: rest =>
    if requested ≤ R ∨ |requested - R| < |requested - next| then R
    else referenceCascade requested (next :: rest)

/-! ## Sample pump: `i2sPushSample` -/

/-- The store `p[i] = v` through an `unsigned int*`: the word at byte address
`p + 4 * i` becomes `v`. -/
def storeWord (mem : Nat → Nat) (p i v : Nat) : Nat → Nat :=
  fun a => if a = p + 4 * i then v else mem a

/-- Lines 171 to 175: when `currDMABuff == NULL`, receive a queue item into
`currDMABuff` and reset the position. `none` when that receive waits. -/
def acquireOnEntry (s : State) : Option State :=
  if s.currDMABuff = 0 then
    match xQueueReceive s.dmaQueue with
    | none => none
    | some (item, q) =>
      some { s with dmaQueue := q, currDMABuff := item, currDMABuffPos := 0 }
  else some s

/-- Line 177, `currDMABuff[currDMABuffPos++]=sample`. -/
def storeSample (sample : Nat) (s : State) : State :=
  { s with
    mem := storeWord s.mem s.currDMABuff s.currDMABuffPos sample
    currDMABuffPos := s.currDMABuffPos + 1 }

/-- Lines 180 to 184: when the position equals `I2S_DMA_PAGE_SIZE`, call
`i2s_send_page(&i2s_obj, &currDMABuff)`, receive the next queue item into
`currDMABuff` and reset the position. -/
def rotateIfFull (c : Config) (s : State) : Outcome :=
  if s.currDMABuffPos = c.I2S_DMA_PAGE_SIZE then
    let s1 : State := { s with calls := s.calls ++ [.i2s_send_page c.addr_currDMABuff] }
    match xQueueReceive s1.dmaQueue with
    | none => .blocked s1
    | some (item, q) =>
      .done { s1 with dmaQueue := q, currDMABuff := item, currDMABuffPos := 0 }
  else .done s

/-- Routine `i2sPushSample(sample)`. -/
def i2sPushSample (c : Config) (sample : Nat) (s : State) : Outcome :=
  match acquireOnEntry s with
  | none => .blocked s
  | some s1 => rotateIfFull c (storeSample sample s1)

/-- The first `k` of consecutive calls `i2sPushSample(samples 0)`,
`i2sPushSample(samples 1)`, ...; a call that is suspended is never followed by
another one. -/
def pushSamples (c : Config) (samples : Nat → Nat) : Nat → State → Outcome
  | 0, s => .done s
  | k + 1, s =>
    match pushSamples c samples k s with
    | .done s1 => i2sPushSample c (samples k) s1
    | .blocked s1 => .blocked s1

/-- The stores of line 177 made by the first `k` calls on one held page, in
call order. -/
def storeSamples (samples : Nat → Nat) : Nat → State → State
  | 0, s => s
  | k + 1, s => storeSample (samples k) (storeSamples samples k s)

/-- Number of `i2s_send_page` calls in a trace. -/
def submissions : List DriverCall → Nat
  | [] => 0
  | .i2s_send_page _ :: rest => submissions rest + 1
  | _ :: rest => submissions rest

/-! ## Completion callbacks -/

/-- Routine `test_tx_complete`; `r1` and `r2` are what the two calls of
`i2s_get_tx_page` (lines 69 and 70) return. The second value overwrites the
first in `ptx_buf`; when it is not `NULL`, `xQueueSendFromISR(dmaQueue, ptx_buf,
&HPTaskAwoken)` runs and its result is dropped. The debug print and the
context switch request of line 74 are outside the model. -/
def test_tx_complete (r1 r2 : Nat) (s : State) : State :=
  let s1 : State :=
    { s with
      tx_count := (s.tx_count + 1) % 4294967296
      calls := s.calls ++ [.i2s_get_tx_page r1, .i2s_get_tx_page r2] }
  if r2 ≠ 0 then
    { s1 with dmaQueue := (xQueueSendFromISR s1.mem s1.dmaQueue r2).2 }
  else s1

/-- Routine `test_rx_complete`; `r` is what the call of `i2s_get_tx_page`
(line 89) returns. When it is not `NULL`, `xQueueSendFromISR(dmaQueue, ptx_buf,
_)` runs and its result is dropped. The third argument, through which FreeRTOS
writes only when the send wakes a waiting task, is outside the model. -/
def test_rx_complete (r : Nat) (s : State) : State :=
  let s1 : State :=
    { s with
      rx_count := (s.rx_count + 1) % 4294967296
      calls := s.calls ++ [.i2s_get_tx_page r] }
  if r ≠ 0 then
    { s1 with dmaQueue := (xQueueSendFromISR s1.mem s1.dmaQueue r).2 }
  else s1

/-! ## Initialization: `i2sInit` -/

/-- The seeding loop of lines 122 to 127 with `n` iterations left, at loop
counter `i`; `pages i` is what `i2s_get_tx_page` returns in iteration `i`.
`xQueueSend(dmaQueue, ptx_buf, portMAX_DELAY)` waits when the queue is full. -/
def seedLoop (pages : Nat → Nat) : Nat → Nat → State → Outcome
  | 0, _, s => .done s
  | n + 1, i, s =>
    let ptx_buf := pages i
    let s1 : State := { s with calls := s.calls ++ [.i2s_get_tx_page ptx_buf] }
    if ptx_buf ≠ 0 then
      match xQueueSend s1.mem s1.dmaQueue ptx_buf with
      | none => .blocked s1
      | some q => seedLoop pages n (i + 1) { s1 with dmaQueue := q }
    else seedLoop pages n (i + 1) s1

/-- Routine `i2sInit()`; `pages i` is what the driver returns on the seeding
request number `i`. The queue is created with `I2S_DMA_PAGE_NUM-1` slots
(`I2S_DMA_PAGE_NUM` is at least 1). -/
def i2sInit (c : Config) (pages : Nat → Nat) (s : State) : Outcome :=
  let obj : I2sObj :=
    { channel_num := .CH_STEREO, sampling_rate := .SR_44p1KHZ,
      word_length := .WL_16b, direction := .I2S_DIR_TXRX }
  let s1 : State :=
    { s with
      i2s_obj := obj
      dmaQueue := xQueueCreate (c.I2S_DMA_PAGE_NUM - 1)
      underrunCnt := 0
      calls := s.calls ++
        [.i2s_init, .i2s_set_dma_buffer c.I2S_DMA_PAGE_NUM c.I2S_DMA_PAGE_SIZE,
         .i2s_tx_irq_handler, .i2s_rx_irq_handler,
         .i2s_set_param obj.channel_num obj.sampling_rate .WL_16b] }
  seedLoop pages c.I2S_DMA_PAGE_NUM 0 s1

/-- Routine `i2sGetUnderrunCnt()`. -/
def i2sGetUnderrunCnt (s : State) : Int :=
  s.underrunCnt

/-- The static variables as the C runtime sets them before `i2sInit` runs: no
page held, offset 0, counters 0, no queue created yet (no slot, no item), no
driver call made; `mem` is the memory content at that time. The fields of
`i2s_obj` are overwritten by `i2sInit` before anything reads them; they are
given arbitrary constants here. -/
def bootState (mem : Nat → Nat) : State :=
  { i2s_obj :=
      { channel_num := .CH_STEREO, sampling_rate := .SR_96KHZ,
        word_length := .WL_16b, direction := .I2S_DIR_RX }
    mem := mem
    dmaQueue := { uxLength := 0, items := [] }
    underrunCnt := 0
    tx_count := 0
    rx_count := 0
    currDMABuff := 0
    currDMABuffPos := 0
    calls := [] }

/-! ## Page ownership -/

/-- Modelled from the spec: the effect of one driver call on the pages the DMA
engine owns (the driver source is not among the sources). Section 4.1: after
the buffers are registered the driver holds the whole pool; section 6:
`acquire_free_page` hands a page to the caller, `submit_page` transfers
ownership of the page it is given to the hardware. -/
def driverStep (pool : List Nat) (owned : List Nat) : DriverCall → List Nat
  | .i2s_set_dma_buffer _ _ => pool
  | .i2s_get_tx_page result => owned.erase result
  | .i2s_send_page pbuf => pbuf :: owned
  | _ => owned

/-- Modelled from the spec: the pages owned by the DMA engine after the driver
calls made so far (section 3, state owned-by-DMA). -/
def dmaOwned (pool : List Nat) (s : State) : List Nat :=
  s.calls.foldl (driverStep pool) []

/-- Modelled from the spec: the pages whose token sits in the handoff channel
(section 3, state in-flight-free). -/
def inChannel (s : State) : List Nat :=
  s.dmaQueue.items

/-- Modelled from the spec: the page the sample pump is filling, if any
(section 3, state owned-by-producer). -/
def producerOwned (s : State) : List Nat :=
  if s.currDMABuff = 0 then [] else [s.currDMABuff]

/-- Number of ownership states page `p` is in, with multiplicity. -/
def ownerCount (pool : List Nat) (s : State) (p : Nat) : Nat :=
  (dmaOwned pool s).count p + (inChannel s).count p + (producerOwned s).count p

/-- Modelled from the spec: ownership conservation of section 3, every page of
the pool is in exactly one of the three ownership states. -/
def OwnershipConserved (pool : List Nat) (s : State) : Prop :=
  ∀ p ∈ pool, ownerCount pool s p = 1

instance decOwnershipConserved (pool : List Nat) (s : State) :
    Decidable (OwnershipConserved pool s) :=
  inferInstanceAs (Decidable (∀ p ∈ pool, ownerCount pool s p = 1))

/-- Sum of the three ownership counts over the pool. -/
def ownedTotal (pool : List Nat) (s : State) : Nat :=
  (pool.map (ownerCount pool s)).sum

/-! ## The scenario of section 8 -/

/-- The constants of the end-to-end scenario of section 8, four pages and a
page size of 256; the static `currDMABuff` lies at `0x10001000`. -/
def scenarioConfig : Config :=
  { I2S_DMA_PAGE_SIZE := 256, I2S_DMA_PAGE_NUM := 4, addr_currDMABuff := 0x10001000 }

/-- Page `i` of `i2s_tx_buf`, an array of `I2S_DMA_PAGE_SIZE*I2S_DMA_PAGE_NUM`
bytes (line 41) placed at `0x10000000`. -/
def txPage (i : Nat) : Nat :=
  0x10000000 + 256 * i

/-- The four pages of the scenario. -/
def scenarioPool : List Nat :=
  [txPage 0, txPage 1, txPage 2, txPage 3]

/-- Memory as the C runtime leaves it for static arrays: all zero. -/
def zeroMem : Nat → Nat :=
  fun _ => 0

/-- A state after start-up in which the queue of three slots holds the tokens
of three pages and the producer holds none. -/
def seededState : State :=
  { bootState zeroMem with
    dmaQueue := { uxLength := 3, items := [txPage 0, txPage 1, txPage 2] } }

/-- A state in which the producer holds page 0 at write offset 0 and the queue
is empty. -/
def starvedState : State :=
  { bootState zeroMem with
    dmaQueue := { uxLength := 3, items := [] }
    currDMABuff := txPage 0 }

/-- A state after start-up with the queue of three slots created and empty. -/
def emptyChannelState : State :=
  { bootState zeroMem with dmaQueue := xQueueCreate 3 }

/-- A driver that returns a page on each seeding request. -/
def allPages (i : Nat) : Nat :=
  txPage i

/-- A driver that returns pages 0, 1 and 2 on the first three seeding requests
and `NULL` afterwards: it retains page 3. -/
def threePages (i : Nat) : Nat :=
  if i < 3 then txPage i else 0

/-- Memory in which every word holds its own address, so that the first word of
each page is the handle of that page. -/
def selfMem : Nat → Nat :=
  fun a => a

/-- The state in which `i2sInit` returns when the buffers are zeroed and the
driver returns three pages and then `NULL`. -/
def initZero : State :=
  (i2sInit scenarioConfig threePages (bootState zeroMem)).state

/-- The state in which `i2sInit` returns when the first word of each page holds
the handle of the page and the driver returns three pages and then `NULL`. -/
def initSelf : State :=
  (i2sInit scenarioConfig threePages (bootState selfMem)).state

/-! ## Rate selection: proofs -/

theorem ABS_of_lt (rate c : Int) (hc0 : 0 ≤ c) (hlt : c < rate) (hhi : rate ≤ INT_MAX) :
    ABS rate c = some (rate - c) := by
  have h1 : INT_MIN ≤ rate - c ∧ rate - c ≤ INT_MAX := by
    unfold INT_MIN INT_MAX at *
    constructor <;> omega
  have h2 : rate - c > 0 := by omega
  simp [ABS, subInt, h1, h2]

theorem rateClause_top (rate : Int) (hhi : rate ≤ INT_MAX) :
    rateClause rate 96000 88200 = some true := by
  by_cases h : rate ≤ 96000
  · simp [rateClause, h]
  · have h96 : (96000 : Int) < rate := by omega
    have h88 : (88200 : Int) < rate := by omega
    have a1 := ABS_of_lt rate 96000 (by norm_num) h96 hhi
    have a2 := ABS_of_lt rate 88200 (by norm_num) h88 hhi
    simp [rateClause, h, a1, a2]

theorem selectRate_top (rate : Int) (hhi : rate ≤ INT_MAX) :
    selectRate rate = some .SR_96KHZ := by
  simp [selectRate, rateClause_top rate hhi]

theorem referenceCascade_top (requested : Int) :
    referenceCascade requested hardwareRates = 96000 := by
  have h : requested ≤ 96000 ∨ |requested - 96000| < |requested - 88200| := by
    by_cases h : requested ≤ 96000
    · exact Or.inl h
    · right
      rw [abs_of_pos (by omega), abs_of_pos (by omega)]
      omega
  simp [hardwareRates, referenceCascade, h]

theorem i2sSetRate_top (rate lockBitcount : Int) (s : State) (hhi : rate ≤ INT_MAX) :
    i2sSetRate rate lockBitcount s =
      some { s with
        i2s_obj := { s.i2s_obj with sampling_rate := .SR_96KHZ }
        calls := s.calls ++ [.i2s_set_param s.i2s_obj.channel_num .SR_96KHZ .WL_16b] } := by
  simp only [i2sSetRate, selectRate_top rate hhi]

/-- Claim C10. For every 32-bit signed `rate` and every `lockBitcount`, the
first condition of the cascade in `i2sSetRate` holds and no subtraction that is
evaluated overflows: above 96000 both `ABS` operands are the plain positive
differences. Hence `i2sSetRate` returns with `sampling_rate = SR_96KHZ`, never
with one of the ten lower constants. -/
theorem C10_cascade_is_constant (rate lockBitcount : Int) (s : State)
    (hlo : INT_MIN ≤ rate) (hhi : rate ≤ INT_MAX) :
    rateClause rate 96000 88200 = some true ∧
    (rate ≤ 96000 ∨
      (ABS rate 96000 = some (rate - 96000) ∧ ABS rate 88200 = some (rate - 88200))) ∧
    selectRate rate = some .SR_96KHZ ∧
    ∃ s', i2sSetRate rate lockBitcount s = some s' ∧
      s'.i2s_obj.sampling_rate = .SR_96KHZ := by
  have _ := hlo
  refine ⟨rateClause_top rate hhi, ?_, selectRate_top rate hhi, ?_⟩
  · by_cases h : rate ≤ 96000
    · exact Or.inl h
    · exact Or.inr ⟨ABS_of_lt rate 96000 (by norm_num) (by omega) hhi,
        ABS_of_lt rate 88200 (by norm_num) (by omega) hhi⟩
  · exact ⟨_, i2sSetRate_top rate lockBitcount s hhi, rfl⟩

/-- Witness of claim C10 at the largest `int`, where both subtractions are
evaluated. -/
theorem C10_cascade_is_constant_witness :
    (INT_MIN ≤ 2147483647 ∧ (2147483647 : Int) ≤ INT_MAX) ∧
    (rateClause 2147483647 96000 88200 = some true ∧
    ((2147483647 : Int) ≤ 96000 ∨
      (ABS 2147483647 96000 = some (2147483647 - 96000) ∧
       ABS 2147483647 88200 = some (2147483647 - 88200))) ∧
    selectRate 2147483647 = some .SR_96KHZ ∧
    ∃ s', i2sSetRate 2147483647 1 (bootState fun _ => 0) = some s' ∧
      s'.i2s_obj.sampling_rate = .SR_96KHZ) :=
  ⟨⟨by decide, by decide⟩,
   C10_cascade_is_constant 2147483647 1 (bootState fun _ => 0) (by decide) (by decide)⟩

/-- Claim C6. For every 32-bit signed requested rate, `i2sSetRate` returns and
the rate in Hz of the constant it stores in `i2s_obj.sampling_rate` is the
result of the reference cascade of section 4.2 over the descending list of the
eleven hardware rates. -/
theorem C6_cascade_equivalence (rate lockBitcount : Int) (s : State)
    (hlo : INT_MIN ≤ rate) (hhi : rate ≤ INT_MAX) :
    ∃ s', i2sSetRate rate lockBitcount s = some s' ∧
      s'.i2s_obj.sampling_rate.hz = referenceCascade rate hardwareRates := by
  have _ := hlo
  refine ⟨_, i2sSetRate_top rate lockBitcount s hhi, ?_⟩
  simp [referenceCascade_top, SampleRate.hz]

/-- Witness of claim C6 at the requested rate 90000. -/
theorem C6_cascade_equivalence_witness :
    (INT_MIN ≤ 90000 ∧ (90000 : Int) ≤ INT_MAX) ∧
    ∃ s', i2sSetRate 90000 0 (bootState fun _ => 0) = some s' ∧
      s'.i2s_obj.sampling_rate.hz = referenceCascade 90000 hardwareRates :=
  ⟨⟨by decide, by decide⟩,
   C6_cascade_equivalence 90000 0 (bootState fun _ => 0) (by decide) (by decide)⟩

/-- Claim C7. For every 32-bit signed rate `r`, flag and state `s`, two
successive calls `i2sSetRate(r, flag)` both return; the second leaves
`i2s_obj` as the first left it and passes the driver the same parameters
(channel count of the session, the selected rate, `WL_16b`); each call keeps
the session's channel count and word length, the queue, the held page, the
write offset, the memory and the pages the DMA engine owns. -/
theorem C7_set_rate_idempotent (r flag : Int) (s : State) (pool : List Nat)
    (hlo : INT_MIN ≤ r) (hhi : r ≤ INT_MAX) :
    ∃ s1 s2 sr, i2sSetRate r flag s = some s1 ∧ i2sSetRate r flag s1 = some s2 ∧
      s2.i2s_obj = s1.i2s_obj ∧
      s1.calls = s.calls ++ [.i2s_set_param s.i2s_obj.channel_num sr .WL_16b] ∧
      s2.calls = s1.calls ++ [.i2s_set_param s.i2s_obj.channel_num sr .WL_16b] ∧
      s1.i2s_obj.sampling_rate = sr ∧
      s1.i2s_obj.channel_num = s.i2s_obj.channel_num ∧
      s1.i2s_obj.word_length = s.i2s_obj.word_length ∧
      (s1.dmaQueue = s.dmaQueue ∧ s2.dmaQueue = s.dmaQueue) ∧
      (s1.currDMABuff = s.currDMABuff ∧ s2.currDMABuff = s.currDMABuff) ∧
      (s1.currDMABuffPos = s.currDMABuffPos ∧ s2.currDMABuffPos = s.currDMABuffPos) ∧
      (s1.mem = s.mem ∧ s2.mem = s.mem) ∧
      (dmaOwned pool s1 = dmaOwned pool s ∧ dmaOwned pool s2 = dmaOwned pool s) ∧
      (inChannel s1 = inChannel s ∧ inChannel s2 = inChannel s) ∧
      (producerOwned s1 = producerOwned s ∧ producerOwned s2 = producerOwned s) := by
  have _ := hlo
  refine ⟨_, _, .SR_96KHZ, i2sSetRate_top r flag s hhi, i2sSetRate_top r flag _ hhi, ?_⟩
  simp [dmaOwned, inChannel, producerOwned, List.foldl_append, driverStep]

/-- Witness of claim C7 at the rate 44100 the spec names. -/
theorem C7_set_rate_idempotent_witness :
    (INT_MIN ≤ 44100 ∧ (44100 : Int) ≤ INT_MAX) ∧
    ∃ s1 s2 sr, i2sSetRate 44100 0 (bootState fun _ => 0) = some s1 ∧
      i2sSetRate 44100 0 s1 = some s2 ∧
      s2.i2s_obj = s1.i2s_obj ∧
      s1.calls = (bootState fun _ => 0).calls ++
        [.i2s_set_param (bootState fun _ => 0).i2s_obj.channel_num sr .WL_16b] ∧
      s2.calls = s1.calls ++
        [.i2s_set_param (bootState fun _ => 0).i2s_obj.channel_num sr .WL_16b] ∧
      s1.i2s_obj.sampling_rate = sr ∧
      s1.i2s_obj.channel_num = (bootState fun _ => 0).i2s_obj.channel_num ∧
      s1.i2s_obj.word_length = (bootState fun _ => 0).i2s_obj.word_length ∧
      (s1.dmaQueue = (bootState fun _ => 0).dmaQueue ∧
        s2.dmaQueue = (bootState fun _ => 0).dmaQueue) ∧
      (s1.currDMABuff = (bootState fun _ => 0).currDMABuff ∧
        s2.currDMABuff = (bootState fun _ => 0).currDMABuff) ∧
      (s1.currDMABuffPos = (bootState fun _ => 0).currDMABuffPos ∧
        s2.currDMABuffPos = (bootState fun _ => 0).currDMABuffPos) ∧
      (s1.mem = (bootState fun _ => 0).mem ∧ s2.mem = (bootState fun _ => 0).mem) ∧
      (dmaOwned [] s1 = dmaOwned [] (bootState fun _ => 0) ∧
        dmaOwned [] s2 = dmaOwned [] (bootState fun _ => 0)) ∧
      (inChannel s1 = inChannel (bootState fun _ => 0) ∧
        inChannel s2 = inChannel (bootState fun _ => 0)) ∧
      (producerOwned s1 = producerOwned (bootState fun _ => 0) ∧
        producerOwned s2 = producerOwned (bootState fun _ => 0)) :=
  ⟨⟨by decide, by decide⟩,
   C7_set_rate_idempotent 44100 0 (bootState fun _ => 0) [] (by decide) (by decide)⟩

/-- Claim C1, evaluated on the code. For each of the six requested rates 96001,
90000, 46000, 44101, 12000 and 7000 the cascade selects `SR_96KHZ`; at 90000
`i2sSetRate` stores `SR_96KHZ` (96000 Hz), which is not `SR_88p2KHZ`. -/
theorem C1_six_rates_select_96k :
    selectRate 96001 = some .SR_96KHZ ∧ selectRate 90000 = some .SR_96KHZ ∧
    selectRate 46000 = some .SR_96KHZ ∧ selectRate 44101 = some .SR_96KHZ ∧
    selectRate 12000 = some .SR_96KHZ ∧ selectRate 7000 = some .SR_96KHZ ∧
    (∃ s', i2sSetRate 90000 0 (bootState fun _ => 0) = some s' ∧
      s'.i2s_obj.sampling_rate = .SR_96KHZ ∧ s'.i2s_obj.sampling_rate.hz = 96000 ∧
      s'.i2s_obj.sampling_rate ≠ .SR_88p2KHZ) := by
  refine ⟨by decide, by decide, by decide, by decide, by decide, by decide, ?_⟩
  refine ⟨_, i2sSetRate_top 90000 0 _ (by decide), ?_⟩
  simp [SampleRate.hz]

/-! ## Sample pump: proofs -/

theorem storeSamples_fields (samples : Nat → Nat) (k : Nat) (s : State) :
    (storeSamples samples k s).currDMABuff = s.currDMABuff ∧
    (storeSamples samples k s).currDMABuffPos = s.currDMABuffPos + k ∧
    (storeSamples samples k s).dmaQueue = s.dmaQueue ∧
    (storeSamples samples k s).calls = s.calls := by
  induction k with
  | zero => simp [storeSamples]
  | succ k ih =>
    obtain ⟨h1, h2, h3, h4⟩ := ih
    simp only [storeSamples, storeSample]
    refine ⟨h1, ?_, h3, h4⟩
    omega

theorem submissions_append (l1 l2 : List DriverCall) :
    submissions (l1 ++ l2) = submissions l1 + submissions l2 := by
  induction l1 with
  | nil => simp [submissions]
  | cons a l ih =>
    cases a <;> simp [submissions, ih]
    omega

theorem i2sPushSample_held (c : Config) (sample : Nat) (s : State)
    (h : s.currDMABuff ≠ 0) :
    i2sPushSample c sample s = rotateIfFull c (storeSample sample s) := by
  simp [i2sPushSample, acquireOnEntry, h]

theorem i2sPushSample_entry (c : Config) (sample : Nat) (s : State) (t : Nat)
    (rest : List Nat) (h : s.currDMABuff = 0) (hq : s.dmaQueue.items = t :: rest) :
    i2sPushSample c sample s =
      rotateIfFull c (storeSample sample
        { s with
          dmaQueue := { s.dmaQueue with items := rest }
          currDMABuff := t
          currDMABuffPos := 0 }) := by
  simp [i2sPushSample, acquireOnEntry, h, xQueueReceive, hq]

theorem rotateIfFull_below (c : Config) (s : State)
    (h : s.currDMABuffPos ≠ c.I2S_DMA_PAGE_SIZE) : rotateIfFull c s = .done s := by
  simp [rotateIfFull, h]

theorem rotateIfFull_full (c : Config) (s : State) (t : Nat) (rest : List Nat)
    (h : s.currDMABuffPos = c.I2S_DMA_PAGE_SIZE) (hq : s.dmaQueue.items = t :: rest) :
    rotateIfFull c s =
      .done { s with
        calls := s.calls ++ [.i2s_send_page c.addr_currDMABuff]
        dmaQueue := { s.dmaQueue with items := rest }
        currDMABuff := t
        currDMABuffPos := 0 } := by
  simp [rotateIfFull, h, xQueueReceive, hq]

theorem pushSamples_fill (c : Config) (samples : Nat → Nat) (s : State) (t : Nat)
    (rest : List Nat) (h : s.currDMABuff = 0) (hq : s.dmaQueue.items = t :: rest)
    (ht : t ≠ 0) (m : Nat) (hm : m < c.I2S_DMA_PAGE_SIZE) :
    pushSamples c samples (m + 1) s =
      rotateIfFull c (storeSamples samples (m + 1)
        { s with
          dmaQueue := { s.dmaQueue with items := rest }
          currDMABuff := t
          currDMABuffPos := 0 }) := by
  induction m with
  | zero =>
    simp only [pushSamples, storeSamples]
    exact i2sPushSample_entry c _ s t rest h hq
  | succ m ih =>
    have ih1 := ih (by omega)
    obtain ⟨f1, f2, _, _⟩ := storeSamples_fields samples (m + 1)
      { s with
        dmaQueue := { s.dmaQueue with items := rest }
        currDMABuff := t
        currDMABuffPos := 0 }
    rw [pushSamples, ih1, rotateIfFull_below c _ (by rw [f2]; simp only; omega)]
    simp only
    rw [i2sPushSample_held c _ _ (by rw [f1]; exact ht)]
    rfl

theorem pushSamples_page (c : Config) (samples : Nat → Nat) (s : State) (t1 t2 : Nat)
    (rest : List Nat) (hsize : 1 ≤ c.I2S_DMA_PAGE_SIZE) (hnull : s.currDMABuff = 0)
    (hq : s.dmaQueue.items = t1 :: t2 :: rest) (ht1 : t1 ≠ 0) :
    pushSamples c samples c.I2S_DMA_PAGE_SIZE s =
      .done { storeSamples samples c.I2S_DMA_PAGE_SIZE
          { s with
            dmaQueue := { s.dmaQueue with items := t2 :: rest }
            currDMABuff := t1
            currDMABuffPos := 0 } with
        calls := s.calls ++ [.i2s_send_page c.addr_currDMABuff]
        dmaQueue := { s.dmaQueue with items := rest }
        currDMABuff := t2
        currDMABuffPos := 0 } := by
  obtain ⟨m, hm⟩ : ∃ m, c.I2S_DMA_PAGE_SIZE = m + 1 := ⟨c.I2S_DMA_PAGE_SIZE - 1, by omega⟩
  obtain ⟨_, f2, f3, f4⟩ := storeSamples_fields samples (m + 1)
    { s with
      dmaQueue := { s.dmaQueue with items := t2 :: rest }
      currDMABuff := t1
      currDMABuffPos := 0 }
  rw [hm, pushSamples_fill c samples s t1 (t2 :: rest) hnull hq ht1 m (by omega),
    rotateIfFull_full c _ t2 rest (by rw [f2]; simp only; omega) (by rw [f3])]
  simp only [f3, f4]

/-- Rotation when the tokens are page handles. Let `I2S_DMA_PAGE_SIZE ≥ 1`, no
page held and the queue hold `t1, t2, rest` with `t1` and `t2` not `NULL`. After
`k < I2S_DMA_PAGE_SIZE` calls the driver trace is unchanged and, for `k > 0`,
`t1` is held at offset `k`; after `I2S_DMA_PAGE_SIZE` calls the trace has grown
by one `i2s_send_page`, `t2` is held at offset 0 and the queue holds `rest`. -/
theorem pushSamples_rotation_of_handles (c : Config) (samples : Nat → Nat) (s : State) (t1 t2 : Nat)
    (rest : List Nat) (hsize : 1 ≤ c.I2S_DMA_PAGE_SIZE) (hnull : s.currDMABuff = 0)
    (hq : s.dmaQueue.items = t1 :: t2 :: rest) (ht1 : t1 ≠ 0) (ht2 : t2 ≠ 0) :
    (∀ k, k < c.I2S_DMA_PAGE_SIZE →
      (pushSamples c samples k s).isBlocked = false ∧
      (pushSamples c samples k s).state.calls = s.calls ∧
      submissions (pushSamples c samples k s).state.calls = submissions s.calls ∧
      (0 < k → (pushSamples c samples k s).state.currDMABuff = t1 ∧
        (pushSamples c samples k s).state.currDMABuffPos = k)) ∧
    (pushSamples c samples c.I2S_DMA_PAGE_SIZE s).isBlocked = false ∧
    (pushSamples c samples c.I2S_DMA_PAGE_SIZE s).state.calls =
      s.calls ++ [.i2s_send_page c.addr_currDMABuff] ∧
    submissions (pushSamples c samples c.I2S_DMA_PAGE_SIZE s).state.calls =
      submissions s.calls + 1 ∧
    (pushSamples c samples c.I2S_DMA_PAGE_SIZE s).state.currDMABuff = t2 ∧
    (pushSamples c samples c.I2S_DMA_PAGE_SIZE s).state.currDMABuff ≠ 0 ∧
    (pushSamples c samples c.I2S_DMA_PAGE_SIZE s).state.currDMABuffPos = 0 ∧
    (pushSamples c samples c.I2S_DMA_PAGE_SIZE s).state.dmaQueue.items = rest ∧
    (pushSamples c samples c.I2S_DMA_PAGE_SIZE s).state.dmaQueue.items.length + 2 =
      s.dmaQueue.items.length := by
  constructor
  · intro k hk
    cases k with
    | zero => simp [pushSamples, Outcome.isBlocked, Outcome.state]
    | succ m =>
      obtain ⟨f1, f2, _, f4⟩ := storeSamples_fields samples (m + 1)
        { s with
          dmaQueue := { s.dmaQueue with items := t2 :: rest }
          currDMABuff := t1
          currDMABuffPos := 0 }
      rw [pushSamples_fill c samples s t1 (t2 :: rest) hnull hq ht1 m (by omega),
        rotateIfFull_below c _ (by rw [f2]; simp only; omega)]
      simp only [Outcome.isBlocked, Outcome.state, f1, f2, f4]
      simp
  · obtain ⟨m, hm⟩ : ∃ m, c.I2S_DMA_PAGE_SIZE = m + 1 := ⟨c.I2S_DMA_PAGE_SIZE - 1, by omega⟩
    obtain ⟨_, f2, f3, f4⟩ := storeSamples_fields samples (m + 1)
      { s with
        dmaQueue := { s.dmaQueue with items := t2 :: rest }
        currDMABuff := t1
        currDMABuffPos := 0 }
    rw [hm, pushSamples_fill c samples s t1 (t2 :: rest) hnull hq ht1 m (by omega),
      rotateIfFull_full c _ t2 rest (by rw [f2]; simp only; omega) (by rw [f3])]
    simp only [Outcome.isBlocked, Outcome.state, f4, submissions_append, hq]
    simp [submissions, ht2]

theorem pushSamples_blocked_add (c : Config) (samples : Nat → Nat) (k : Nat) (s : State)
    (h : (pushSamples c samples k s).isBlocked = true) (j : Nat) :
    pushSamples c samples (k + j) s = pushSamples c samples k s := by
  induction j with
  | zero => rfl
  | succ j ih =>
    rw [← Nat.add_assoc, pushSamples, ih]
    cases hk : pushSamples c samples k s with
    | done s1 => rw [hk] at h; simp [Outcome.isBlocked] at h
    | blocked s1 => rfl

/-- Claim C2, evaluated on the code. In the scenario of section 8 (four pages,
page size 256) `i2sInit` returns on zeroed buffers when the driver hands out
pages 0, 1, 2 and retains page 3; no page is held and the queue holds three
tokens, each the word `0`. Every call of `i2sPushSample` then finds
`currDMABuff == NULL` and takes a token: after three calls the write offset is
1, not 3, and the queue is empty; the fourth call is suspended. After 256 calls
the pump is still suspended there, no `i2s_send_page` has been made and no token
is left, where the claim has one submission, a page held at offset 0 and one
token left. -/
theorem C2_rotation_after_init_blocks :
    (i2sInit scenarioConfig threePages (bootState zeroMem)).isBlocked = false ∧
    initZero.currDMABuff = 0 ∧ initZero.dmaQueue.items = [0, 0, 0] ∧
    (pushSamples scenarioConfig id 3 initZero).isBlocked = false ∧
    (pushSamples scenarioConfig id 3 initZero).state.currDMABuffPos = 1 ∧
    (pushSamples scenarioConfig id 3 initZero).state.dmaQueue.items = [] ∧
    (pushSamples scenarioConfig id 4 initZero).isBlocked = true ∧
    scenarioConfig.I2S_DMA_PAGE_SIZE = 256 ∧
    (pushSamples scenarioConfig id scenarioConfig.I2S_DMA_PAGE_SIZE initZero).isBlocked
      = true ∧
    submissions
      (pushSamples scenarioConfig id scenarioConfig.I2S_DMA_PAGE_SIZE initZero).state.calls
      = 0 ∧
    (pushSamples scenarioConfig id scenarioConfig.I2S_DMA_PAGE_SIZE
      initZero).state.currDMABuff = 0 ∧
    (pushSamples scenarioConfig id scenarioConfig.I2S_DMA_PAGE_SIZE
      initZero).state.dmaQueue.items = [] := by
  have h4 : (pushSamples scenarioConfig id 4 initZero).isBlocked = true := rfl
  have hps : scenarioConfig.I2S_DMA_PAGE_SIZE = 4 + 252 := rfl
  have hall := pushSamples_blocked_add scenarioConfig id 4 initZero h4 252
  rw [hps, hall]
  exact ⟨rfl, rfl, rfl, rfl, rfl, rfl, rfl, rfl, rfl, rfl, rfl, rfl⟩

/-- Claim C5. For every state and sample, `i2sPushSample` is suspended exactly
when the queue is empty at a point where the call takes a token: on entry with
no page held; or after the store that brings the write offset to
`I2S_DMA_PAGE_SIZE`, which is the store of a call that held a page at offset
`I2S_DMA_PAGE_SIZE - 1`, or, for a page size of 1, of a call that took the only
token on entry. In particular a call made while a page is held at a write
offset below `I2S_DMA_PAGE_SIZE - 1` returns, whatever the queue holds. -/
theorem C5_blocks_iff_channel_empty (c : Config) (sample : Nat) (s : State) :
    ((i2sPushSample c sample s).isBlocked = true ↔
      (s.currDMABuff = 0 ∧ s.dmaQueue.items = []) ∨
      (s.currDMABuff = 0 ∧ c.I2S_DMA_PAGE_SIZE = 1 ∧ s.dmaQueue.items.length = 1) ∨
      (s.currDMABuff ≠ 0 ∧ s.currDMABuffPos + 1 = c.I2S_DMA_PAGE_SIZE ∧
        s.dmaQueue.items = [])) ∧
    (s.currDMABuff ≠ 0 → s.currDMABuffPos + 1 < c.I2S_DMA_PAGE_SIZE →
      (i2sPushSample c sample s).isBlocked = false) := by
  constructor
  · by_cases h : s.currDMABuff = 0
    · rcases hq : s.dmaQueue.items with _ | ⟨t, rest⟩
      · simp [i2sPushSample, acquireOnEntry, h, xQueueReceive, hq, Outcome.isBlocked]
      · rw [i2sPushSample_entry c sample s t rest h hq]
        by_cases hp : c.I2S_DMA_PAGE_SIZE = 1
        · cases rest with
          | nil =>
            simp [rotateIfFull, storeSample, xQueueReceive, hp, h, Outcome.isBlocked]
          | cons t2 rest2 =>
            simp [rotateIfFull, storeSample, xQueueReceive, hp, h, Outcome.isBlocked]
        · have hp2 : ¬ (1 = c.I2S_DMA_PAGE_SIZE) := fun e => hp e.symm
          simp [rotateIfFull, storeSample, hp, hp2, h, Outcome.isBlocked]
    · rw [i2sPushSample_held c sample s h]
      by_cases hp : s.currDMABuffPos + 1 = c.I2S_DMA_PAGE_SIZE
      · rcases hq : s.dmaQueue.items with _ | ⟨t, rest⟩
        · simp [rotateIfFull, storeSample, xQueueReceive, hp, h, hq, Outcome.isBlocked]
        · simp [rotateIfFull, storeSample, xQueueReceive, hp, h, hq, Outcome.isBlocked]
      · simp [rotateIfFull, storeSample, hp, h, Outcome.isBlocked]
  · intro h hlt
    rw [i2sPushSample_held c sample s h,
      rotateIfFull_below c _ (by simp only [storeSample]; omega)]
    rfl

/-- Witness of claim C5: with page 0 held at offset 0 and a page size of 256
the call returns although the queue is empty. -/
theorem C5_blocks_iff_channel_empty_witness :
    (starvedState.currDMABuff ≠ 0 ∧
      starvedState.currDMABuffPos + 1 < scenarioConfig.I2S_DMA_PAGE_SIZE ∧
      starvedState.dmaQueue.items = []) ∧
    (i2sPushSample scenarioConfig 7 starvedState).isBlocked = false :=
  ⟨⟨by simp [starvedState, txPage], by decide, rfl⟩,
    (C5_blocks_iff_channel_empty scenarioConfig 7 starvedState).2
      (by simp [starvedState, txPage]) (by decide)⟩

/-! ## Initialization: proofs -/

theorem seedLoop_overfull (pages : Nat → Nat) (n : Nat) :
    ∀ (i : Nat) (s : State), (∀ j, i ≤ j → j < i + n → pages j ≠ 0) →
      s.dmaQueue.items.length ≤ s.dmaQueue.uxLength →
      s.dmaQueue.uxLength - s.dmaQueue.items.length < n →
      (seedLoop pages n i s).isBlocked = true ∧
      (seedLoop pages n i s).state.dmaQueue.items.length = s.dmaQueue.uxLength ∧
      (seedLoop pages n i s).state.dmaQueue.uxLength = s.dmaQueue.uxLength := by
  induction n with
  | zero => intro i s _ _ h; omega
  | succ n ih =>
    intro i s hp hle hlt
    have hpi : pages i ≠ 0 := hp i (le_refl i) (by omega)
    by_cases hfull : s.dmaQueue.items.length < s.dmaQueue.uxLength
    · have hrec := ih (i + 1)
        { s with
          calls := s.calls ++ [.i2s_get_tx_page (pages i)]
          dmaQueue := { s.dmaQueue with items := s.dmaQueue.items ++ [s.mem (pages i)] } }
        (fun j h1 h2 => hp j (by omega) (by omega))
        (by simp only [List.length_append, List.length_singleton]; omega)
        (by simp only [List.length_append, List.length_singleton]; omega)
      simpa [seedLoop, hpi, xQueueSend, hfull] using hrec
    · have heq : s.dmaQueue.items.length = s.dmaQueue.uxLength := by omega
      simp [seedLoop, hpi, xQueueSend, hfull, Outcome.isBlocked, Outcome.state, heq]

/-- Claim C3, evaluated on the code. For every `I2S_DMA_PAGE_NUM ≥ 2` and a
driver that returns a page on each of the `I2S_DMA_PAGE_NUM` seeding requests,
`i2sInit` does not complete: it is suspended in the `xQueueSend` of the last
request, the queue being full with `I2S_DMA_PAGE_NUM - 1` items, its
capacity. -/
theorem C3_init_blocks_on_last_seed (c : Config) (pages : Nat → Nat) (s : State)
    (hn : 2 ≤ c.I2S_DMA_PAGE_NUM) (hp : ∀ i, i < c.I2S_DMA_PAGE_NUM → pages i ≠ 0) :
    (i2sInit c pages s).isBlocked = true ∧
    (i2sInit c pages s).state.dmaQueue.items.length = c.I2S_DMA_PAGE_NUM - 1 ∧
    (i2sInit c pages s).state.dmaQueue.uxLength = c.I2S_DMA_PAGE_NUM - 1 := by
  unfold i2sInit
  exact seedLoop_overfull pages c.I2S_DMA_PAGE_NUM 0 _
    (fun j _ h2 => hp j (by omega))
    (by simp [xQueueCreate])
    (by simp only [xQueueCreate, List.length_nil]; omega)

/-- Witness of claim C3 in the scenario of section 8: four pages, a page
returned on each of the four requests. -/
theorem C3_init_blocks_on_last_seed_witness :
    (2 ≤ scenarioConfig.I2S_DMA_PAGE_NUM ∧
      ∀ i, i < scenarioConfig.I2S_DMA_PAGE_NUM → allPages i ≠ 0) ∧
    (i2sInit scenarioConfig allPages (bootState zeroMem)).isBlocked = true ∧
    (i2sInit scenarioConfig allPages (bootState zeroMem)).state.dmaQueue.items.length =
      scenarioConfig.I2S_DMA_PAGE_NUM - 1 ∧
    (i2sInit scenarioConfig allPages (bootState zeroMem)).state.dmaQueue.uxLength =
      scenarioConfig.I2S_DMA_PAGE_NUM - 1 :=
  ⟨⟨by decide, fun i _ => by simp [allPages, txPage]⟩,
    C3_init_blocks_on_last_seed scenarioConfig allPages (bootState zeroMem) (by decide)
      (fun i _ => by simp [allPages, txPage])⟩

/-! ## Completion callbacks: proofs -/

/-- Claim C9, evaluated on the code. In every state `test_tx_complete` leaves
the queue as it is when the second query returns `NULL` or the queue is full,
whatever the first query returned, and otherwise appends one item; likewise
`test_rx_complete` with its single query. The item appended is not the page
pointer `ptx_buf` but the word stored at that address: with zeroed buffers and
the driver returning page 1 the item is `0`, and it is the same `0` when the
driver returns page 2. -/
theorem C9_callback_enqueues_first_word_of_page :
    (∀ (r1 r2 : Nat) (s : State),
      (test_tx_complete r1 r2 s).dmaQueue.items =
        if r2 ≠ 0 ∧ s.dmaQueue.items.length < s.dmaQueue.uxLength
        then s.dmaQueue.items ++ [s.mem r2] else s.dmaQueue.items) ∧
    (∀ (r : Nat) (s : State),
      (test_rx_complete r s).dmaQueue.items =
        if r ≠ 0 ∧ s.dmaQueue.items.length < s.dmaQueue.uxLength
        then s.dmaQueue.items ++ [s.mem r] else s.dmaQueue.items) ∧
    (test_tx_complete 0 (txPage 1) emptyChannelState).dmaQueue.items = [0] ∧
    (test_tx_complete 0 (txPage 2) emptyChannelState).dmaQueue.items = [0] ∧
    (test_rx_complete (txPage 1) emptyChannelState).dmaQueue.items = [0] ∧
    (test_rx_complete (txPage 2) emptyChannelState).dmaQueue.items = [0] ∧
    txPage 1 ≠ 0 ∧ txPage 1 ≠ txPage 2 := by
  refine ⟨?_, ?_, ?_, ?_, ?_, ?_, by simp [txPage], by simp [txPage]⟩
  · intro r1 r2 s
    by_cases h2 : r2 = 0
    · simp [test_tx_complete, h2]
    · by_cases hf : s.dmaQueue.items.length < s.dmaQueue.uxLength
      · simp [test_tx_complete, xQueueSendFromISR, h2, hf]
      · simp [test_tx_complete, xQueueSendFromISR, h2, hf]
  · intro r s
    by_cases h2 : r = 0
    · simp [test_rx_complete, h2]
    · by_cases hf : s.dmaQueue.items.length < s.dmaQueue.uxLength
      · simp [test_rx_complete, xQueueSendFromISR, h2, hf]
      · simp [test_rx_complete, xQueueSendFromISR, h2, hf]
  · simp [test_tx_complete, xQueueSendFromISR, emptyChannelState, bootState, xQueueCreate,
      zeroMem, txPage]
  · simp [test_tx_complete, xQueueSendFromISR, emptyChannelState, bootState, xQueueCreate,
      zeroMem, txPage]
  · simp [test_rx_complete, xQueueSendFromISR, emptyChannelState, bootState, xQueueCreate,
      zeroMem, txPage]
  · simp [test_rx_complete, xQueueSendFromISR, emptyChannelState, bootState, xQueueCreate,
      zeroMem, txPage]

/-! ## Submitted page: proofs -/

theorem storeSamples_mem (samples : Nat → Nat) (k : Nat) (s : State) (j : Nat) (hj : j < k) :
    (storeSamples samples k s).mem (s.currDMABuff + 4 * (s.currDMABuffPos + j)) =
      samples j := by
  induction k with
  | zero => omega
  | succ k ih =>
    obtain ⟨f1, f2, _, _⟩ := storeSamples_fields samples k s
    simp only [storeSamples, storeSample, storeWord, f1, f2]
    by_cases hjk : j = k
    · simp [hjk]
    · have hne : ¬ (s.currDMABuff + 4 * (s.currDMABuffPos + j) =
          s.currDMABuff + 4 * (s.currDMABuffPos + k)) := by omega
      rw [if_neg hne]
      exact ih (by omega)

/-- Claim C8, evaluated on the code. In the scenario of section 8, with no page
held and the tokens of pages 0, 1, 2 in the queue, 256 calls
`i2sPushSample(0)`, ..., `i2sPushSample(255)` fill page 0: the word at offset
`k` of page 0 is sample `k`, each once and in push order. The one submission
made passes `&currDMABuff`, the address `0x10001000` of the pointer variable,
not the handle `0x10000000` of page 0 that was popped and filled. The 256 words
written are 1024 bytes: sample 64 lands on the first word of page 1. -/
theorem C8_submit_passes_address_of_pointer :
    (pushSamples scenarioConfig id scenarioConfig.I2S_DMA_PAGE_SIZE seededState).state.calls
      = [.i2s_send_page 0x10001000] ∧
    txPage 0 = 0x10000000 ∧
    seededState.dmaQueue.items.head? = some (txPage 0) ∧
    (∀ k, k < 256 →
      (pushSamples scenarioConfig id scenarioConfig.I2S_DMA_PAGE_SIZE seededState).state.mem
        (txPage 0 + 4 * k) = k) ∧
    (pushSamples scenarioConfig id scenarioConfig.I2S_DMA_PAGE_SIZE seededState).state.mem
      (txPage 1) = 64 := by
  have hps : scenarioConfig.I2S_DMA_PAGE_SIZE = 255 + 1 := rfl
  have hfill := pushSamples_fill scenarioConfig id seededState (txPage 0)
    [txPage 1, txPage 2] rfl rfl (by simp [txPage]) 255 (by decide)
  obtain ⟨_, f2, f3, f4⟩ := storeSamples_fields id (255 + 1)
    { seededState with
      dmaQueue := { seededState.dmaQueue with items := [txPage 1, txPage 2] }
      currDMABuff := txPage 0
      currDMABuffPos := 0 }
  have hmem := storeSamples_mem id (255 + 1)
    { seededState with
      dmaQueue := { seededState.dmaQueue with items := [txPage 1, txPage 2] }
      currDMABuff := txPage 0
      currDMABuffPos := 0 }
  rw [hps, hfill, rotateIfFull_full scenarioConfig _ (txPage 1) [txPage 2]
    (by rw [f2]; rfl) (by rw [f3])]
  simp only [Outcome.state, f4]
  refine ⟨rfl, rfl, rfl, ?_, ?_⟩
  · intro k hk
    have h := hmem k (by omega)
    simpa using h
  · have h := hmem 64 (by decide)
    simpa [txPage] using h

/-! ## Ownership: proofs -/

/-- Claim C4, evaluated on the code. In the scenario of section 8 `i2sInit`
returns when the driver hands out pages 0, 1, 2 and retains page 3.
With zeroed buffers the three items then in the queue are `0`, not the pages:
pages 0, 1 and 2 are in none of the three ownership states.
With buffers whose first word is the page handle, ownership is conserved after
`i2sInit`, and then each of these steps leaves a page in no state: a
`test_tx_complete` whose first query returns page 3 and whose second returns
`NULL`; a `test_rx_complete` whose query returns page 3 while the queue is full;
256 calls of `i2sPushSample`, after which page 0 is neither held, nor in the
queue, nor owned by the DMA engine, which was given `&currDMABuff`. -/
theorem C4_ownership_not_conserved :
    ((i2sInit scenarioConfig threePages (bootState zeroMem)).isBlocked = false ∧
      inChannel initZero = [0, 0, 0] ∧ dmaOwned scenarioPool initZero = [txPage 3] ∧
      producerOwned initZero = [] ∧ ownerCount scenarioPool initZero (txPage 0) = 0 ∧
      ownedTotal scenarioPool initZero = 1 ∧ ¬ OwnershipConserved scenarioPool initZero) ∧
    ((i2sInit scenarioConfig threePages (bootState selfMem)).isBlocked = false ∧
      ownedTotal scenarioPool initSelf = 4 ∧ OwnershipConserved scenarioPool initSelf) ∧
    (ownerCount scenarioPool (test_tx_complete (txPage 3) 0 initSelf) (txPage 3) = 0 ∧
      ownedTotal scenarioPool (test_tx_complete (txPage 3) 0 initSelf) = 3 ∧
      ¬ OwnershipConserved scenarioPool (test_tx_complete (txPage 3) 0 initSelf)) ∧
    (ownerCount scenarioPool (test_rx_complete (txPage 3) initSelf) (txPage 3) = 0 ∧
      ownedTotal scenarioPool (test_rx_complete (txPage 3) initSelf) = 3 ∧
      ¬ OwnershipConserved scenarioPool (test_rx_complete (txPage 3) initSelf)) ∧
    ((pushSamples scenarioConfig id scenarioConfig.I2S_DMA_PAGE_SIZE initSelf).isBlocked
        = false ∧
      ownerCount scenarioPool
        (pushSamples scenarioConfig id scenarioConfig.I2S_DMA_PAGE_SIZE initSelf).state
        (txPage 0) = 0 ∧
      ownedTotal scenarioPool
        (pushSamples scenarioConfig id scenarioConfig.I2S_DMA_PAGE_SIZE initSelf).state = 3 ∧
      ¬ OwnershipConserved scenarioPool
        (pushSamples scenarioConfig id scenarioConfig.I2S_DMA_PAGE_SIZE initSelf).state) := by
  have hpage := pushSamples_page scenarioConfig id initSelf (txPage 0) (txPage 1) [txPage 2]
    (by decide) rfl rfl (by simp [txPage])
  refine ⟨⟨rfl, rfl, rfl, rfl, rfl, rfl, ?_⟩, ⟨rfl, rfl, ?_⟩, ⟨rfl, rfl, ?_⟩,
    ⟨rfl, rfl, ?_⟩, ?_⟩
  · intro h
    exact absurd (h (txPage 0) (by simp [scenarioPool])) (by decide)
  · intro p hp
    simp only [scenarioPool, List.mem_cons, List.mem_singleton, List.not_mem_nil,
      or_false] at hp
    rcases hp with h | h | h | h <;> subst h <;> rfl
  · intro h
    exact absurd (h (txPage 3) (by simp [scenarioPool])) (by decide)
  · intro h
    exact absurd (h (txPage 3) (by simp [scenarioPool])) (by decide)
  · rw [hpage]
    refine ⟨rfl, rfl, rfl, ?_⟩
    intro h
    exact absurd (h (txPage 0) (by simp [scenarioPool])) (by decide)

end I2sFreertos
